import Mathlib

/-!
Shallow embedding of the Eternalgy-News link-processing core
(`src/news_search/database.py`, `src/news_search/processor_worker.py`,
`src/news_search/config.py`).

Conventions of the embedding:
* Python dict rows become Lean structures; SQL tables become lists of rows
  inside `DBState`; `CURRENT_TIMESTAMP` is the fixed field `DBState.now`.
* Statuses are the literal strings the Python code uses
  ("pending", "processing", "completed", "failed", "blocked").
* Optional / nullable Python values become `Option`; Python string
  truthiness (`x or y`, `if not domain`) is modelled explicitly by the
  `pyOrS` / `pyOrOpt` helpers (empty string is falsy).
* The functions `extract_domain` and `_title_from_url` live outside the
  modelled sources (`url_normalizer.py` is not part of the embedded core;
  `_title_from_url` only wraps `urllib.parse`), so the worker is
  parametrised over them through `Env`, exactly as the Python worker is
  parametrised over its `ai_processor` gateway.
* The enrichment gateway (`ai_processor.process`) is modelled as a
  function from the 1-based attempt number to a `GatewayResponse`:
  it may return a result dict, return `None`, or raise.
* Every database call made by the worker is additionally logged as an
  event (`Ev`) in a trace, so ordering and counting properties
  (gateway-call counts, save-before-complete) are provable.
* The thread pool of `_process_domains` is modelled as a sequential fold
  over the domain groups: cross-domain interleaving is abstracted away,
  while the per-domain order (the property the spec guarantees) is kept
  exactly.
-/

namespace NewsSearch

/-- Configuration constant from `config.py` line 70: `MAX_RETRIES = 2`. -/
def MAX_RETRIES : Nat := 2

/-- Configuration constant from `config.py`: `SAME_DOMAIN_DELAY = 3`. -/
def SAME_DOMAIN_DELAY : Nat := 3

/-- Configuration constant from `config.py`: `MAX_CONCURRENT_DOMAINS = 3`. -/
def MAX_CONCURRENT_DOMAINS : Nat := 3

/-- Python `a or b` where `a : Option String` (None or str) and the result
must be a string: returns `b` when `a` is `None` or the empty string. -/
def pyOrS (a : Option String) (b : String) : String :=
  match a with
  | some s => if s = "" then b else s
  | none => b

/-- Python `a or b` where `a : String` and `b : Option String`:
returns `b` as-is when `a` is falsy (empty). -/
def pyOrOpt (a : String) (b : Option String) : Option String :=
  if a = "" then b else some a

/-- One row of the `news_links` table (`database.py`, `init_tables`). -/
structure LinkRow where
  id : Nat
  url : String
  urlHash : String
  title : Option String
  sourceTask : Option String
  status : String
  errorMessage : Option String
  processedAt : Option Nat
  discoveredAt : Nat
deriving Repr, DecidableEq

/-- The payload columns of a `processed_content` row (the values passed to
`save_processed_content`).  `metadata` is kept opaque: the core never
interprets it (`Json(metadata) if metadata else None` — a falsy metadata
dict is modelled as `none`). -/
structure ContentPayload where
  title : Option String
  titleEn : Option String
  titleZh : Option String
  titleMs : Option String
  content : Option String
  translatedContent : Option String
  tags : Option (List String)
  country : Option String
  newsDate : Option String
  metadata : Option String
deriving Repr, DecidableEq

/-- One row of the `processed_content` table, keyed by `link_id` (UNIQUE). -/
structure ContentRow where
  linkId : Nat
  payload : ContentPayload
deriving Repr, DecidableEq

/-- One row of the `blacklisted_sites` table, keyed by `domain` (UNIQUE). -/
structure BlacklistRow where
  domain : String
  url : String
  title : Option String
  reason : Option String
deriving Repr, DecidableEq

/-- The visible database state: the three tables the core touches, the
next SERIAL id for `news_links`, and the current timestamp. -/
structure DBState where
  links : List LinkRow
  content : List ContentRow
  blacklist : List BlacklistRow
  nextId : Nat
  now : Nat
deriving Repr, DecidableEq

/-- `database.py::insert_news_link`: `INSERT ... ON CONFLICT (url_hash) DO
NOTHING RETURNING id`.  Returns the fresh id, or `none` on a duplicate
fingerprint (and never raises for a duplicate — the model is total). -/
def insert_news_link (db : DBState) (url urlHash sourceTask : String)
    (title : Option String) : Option Nat × DBState :=
  if db.links.any (fun r => r.urlHash = urlHash) then
    (none, db)
  else
    (some db.nextId,
     { db with
        links := db.links ++
          [{ id := db.nextId, url := url, urlHash := urlHash, title := title,
             sourceTask := some sourceTask, status := "pending",
             errorMessage := none, processedAt := none,
             discoveredAt := db.now }],
        nextId := db.nextId + 1 })

/-- `database.py::update_link_status`: stamps `processed_at =
CURRENT_TIMESTAMP` only when the new status is `'completed'` or
`'failed'` (the literal membership test `status in ['completed',
'failed']` of line 256); every other status (including `'blocked'`)
takes the branch that leaves `processed_at` untouched. -/
def update_link_status (db : DBState) (linkId : Nat) (status : String)
    (errorMessage : Option String) : DBState :=
  if status = "completed" ∨ status = "failed" then
    { db with links := db.links.map (fun r =>
        if r.id = linkId then
          { r with status := status, errorMessage := errorMessage,
                   processedAt := some db.now }
        else r) }
  else
    { db with links := db.links.map (fun r =>
        if r.id = linkId then
          { r with status := status, errorMessage := errorMessage }
        else r) }

/-- `database.py::save_processed_content`: `INSERT ... ON CONFLICT
(link_id) DO UPDATE SET ...` — upsert of the 1:1 content row. -/
def save_processed_content (db : DBState) (linkId : Nat)
    (p : ContentPayload) : DBState :=
  if db.content.any (fun c => c.linkId = linkId) then
    { db with content := db.content.map (fun c =>
        if c.linkId = linkId then { c with payload := p } else c) }
  else
    { db with content := db.content ++ [{ linkId := linkId, payload := p }] }

/-- `database.py::is_domain_blacklisted`: `if not domain: return False`,
else `SELECT 1 FROM blacklisted_sites WHERE domain = %s`. -/
def is_domain_blacklisted (db : DBState) (domain : String) : Bool :=
  if domain = "" then false
  else db.blacklist.any (fun b => b.domain = domain)

/-- The unique key used by `add_blacklisted_site`: `if not domain: domain
= url` — a `None` or empty domain is replaced by the full url. -/
def blKey (domain : Option String) (url : String) : String :=
  match domain with
  | none => url
  | some d => if d = "" then url else d

/-- `database.py::add_blacklisted_site`: `INSERT ... ON CONFLICT (domain)
DO UPDATE SET url = EXCLUDED.url, title = ..., reason = ...` after the
`if not domain: domain = url` substitution. -/
def add_blacklisted_site (db : DBState) (domain : Option String)
    (url : String) (title reason : Option String) : DBState :=
  let key := blKey domain url
  if db.blacklist.any (fun b => b.domain = key) then
    { db with blacklist := db.blacklist.map (fun b =>
        if b.domain = key then
          { b with url := url, title := title, reason := reason }
        else b) }
  else
    { db with blacklist := db.blacklist ++
        [{ domain := key, url := url, title := title, reason := reason }] }

/-- Stable insertion of a row into a list sorted by `discovered_at`
descending (model of the `ORDER BY discovered_at DESC`). -/
def insertDescBy (r : LinkRow) : List LinkRow → List LinkRow
  | [] => [r]
  | x :: xs =>
      if r.discoveredAt ≤ x.discoveredAt then x :: insertDescBy r xs
      else r :: x :: xs

/-- Sort links by `discovered_at` descending (insertion sort). -/
def sortByDiscoveredDesc (l : List LinkRow) : List LinkRow :=
  l.foldr insertDescBy []

/-- `database.py::get_pending_links`: `SELECT ... WHERE status = 'pending'
ORDER BY discovered_at DESC LIMIT %s`. -/
def get_pending_links (db : DBState) (limit : Nat) : List LinkRow :=
  (sortByDiscoveredDesc (db.links.filter (fun r => r.status = "pending"))).take limit

/-- `database.py::get_links_by_ids`: `SELECT id, url, source_task,
discovered_at, status FROM news_links WHERE id = ANY(%s)` — note the
SELECT list omits `title`, so the dict the worker receives has no
`title` key; the model erases it to `none`.  No status filter. -/
def get_links_by_ids (db : DBState) (linkIds : List Nat) : List LinkRow :=
  (db.links.filter (fun r => linkIds.contains r.id)).map
    (fun r => { r with title := none })

/-- Number of stored links carrying a given fingerprint. -/
def countHash (db : DBState) (h : String) : Nat :=
  (db.links.filter (fun r => r.urlHash = h)).length

/-- Status of the first stored link with the given id, if any. -/
def statusOf (db : DBState) (linkId : Nat) : Option String :=
  (db.links.find? (fun r => r.id = linkId)).map (fun r => r.status)

/-- Error message column of the first stored link with the given id. -/
def errMsgOf (db : DBState) (linkId : Nat) : Option (Option String) :=
  (db.links.find? (fun r => r.id = linkId)).map (fun r => r.errorMessage)

/-- Processed-at column of the first stored link with the given id. -/
def processedAtOf (db : DBState) (linkId : Nat) : Option (Option Nat) :=
  (db.links.find? (fun r => r.id = linkId)).map (fun r => r.processedAt)

/-- The result dict the enrichment gateway (`ai_processor.process`) may
return.  `blocked` / `success` model the truthiness of `result.get(
'blocked')` / `result.get('success')`; `metadataBlockReason` models
`result.get('metadata', {}).get('block_reason', ...)` (`none` when the
key is absent). -/
structure GatewayResultDict where
  blocked : Bool
  success : Bool
  error : Option String
  blockReason : Option String
  title : Option String
  titleEn : Option String
  titleZh : Option String
  titleMs : Option String
  content : Option String
  translatedContent : Option String
  tags : Option (List String)
  country : Option String
  newsDate : Option String
  metadata : Option String
  metadataBlockReason : Option String
deriving Repr, DecidableEq

/-- One behaviour of one gateway call: return a dict, return `None`, or
raise an exception whose `str(e)` is the carried message. -/
inductive GatewayResponse where
  | ret (r : Option GatewayResultDict)
  | raises (msg : String)
deriving Repr, DecidableEq

/-- A gateway call is a FAILURE for the retry loop: it raised, returned
`None`, or returned a dict that is neither blocked nor success. -/
def isFailureResponse : GatewayResponse → Bool
  | .raises _ => true
  | .ret none => true
  | .ret (some r) => !r.blocked && !r.success

/-- The error text the retry loop records for a FAILURE response
(`str(e)`, `"processing returned none"`, or `result.get('error',
'Unknown error')`). -/
def failureText : GatewayResponse → String
  | .raises msg => msg
  | .ret none => "processing returned none"
  | .ret (some r) => r.error.getD "Unknown error"

/-- The repository functions the worker imports from outside the embedded
module: `url_normalizer.extract_domain` and the `urllib`-based
`_title_from_url`.  The worker is parametric in them, like it is in its
`ai_processor`. -/
structure Env where
  extractDomain : String → String
  titleFromUrl : String → String

/-- Observable side-effect events of a worker run, in program order. -/
inductive Ev where
  | rateWait (domain : String)
  | gwCall (linkId : Nat) (attempt : Nat)
  | dbSaveContent (linkId : Nat)
  | dbSetStatus (linkId : Nat) (status : String) (err : Option String)
  | dbUpsertBlacklist (key : String)
deriving Repr, DecidableEq

/-- Worker-visible state: the database plus the event trace so far. -/
structure WS where
  db : DBState
  trace : List Ev
deriving Repr, DecidableEq

/-- Perform `update_link_status` and log the event. -/
def wsSetStatus (s : WS) (linkId : Nat) (status : String)
    (err : Option String) : WS :=
  { db := update_link_status s.db linkId status err,
    trace := s.trace ++ [Ev.dbSetStatus linkId status err] }

/-- Perform `save_processed_content` and log the event. -/
def wsSaveContent (s : WS) (linkId : Nat) (p : ContentPayload) : WS :=
  { db := save_processed_content s.db linkId p,
    trace := s.trace ++ [Ev.dbSaveContent linkId] }

/-- Perform `add_blacklisted_site` and log the event. -/
def wsUpsertBlacklist (s : WS) (domain : Option String) (url : String)
    (title reason : Option String) : WS :=
  { db := add_blacklisted_site s.db domain url title reason,
    trace := s.trace ++ [Ev.dbUpsertBlacklist (blKey domain url)] }

/-- The per-link outcome record the worker returns (the Python dicts have
varying key sets; absent keys are `none`). -/
structure Detail where
  linkId : Nat
  url : String
  status : String
  reason : Option String
  title : Option String
deriving Repr, DecidableEq

/-- The content payload `_process_single_link` passes to
`save_processed_content` on success. -/
def payloadOf (r : GatewayResultDict) : ContentPayload :=
  { title := r.title, titleEn := r.titleEn, titleZh := r.titleZh,
    titleMs := r.titleMs, content := r.content,
    translatedContent := r.translatedContent, tags := r.tags,
    country := r.country, newsDate := r.newsDate, metadata := r.metadata }

/-- `processor_worker.py::_handle_blacklisted_link`: upsert the domain
into `blacklisted_sites`, then transition the link to `blocked` with the
computed reason. -/
def handle_blacklisted_link (env : Env) (link : LinkRow)
    (r : GatewayResultDict) (s : WS) : WS :=
  let domain := env.extractDomain link.url
  let reason := pyOrS r.blockReason (r.metadataBlockReason.getD "Reader blocked")
  let title := pyOrS link.title (env.titleFromUrl link.url)
  let s := wsUpsertBlacklist s (some domain) link.url (some title) (some reason)
  wsSetStatus s link.id "blocked" (some reason)

/-- The retry loop body of `processor_worker.py::_process_single_link`:
`for attempt in range(1, MAX_RETRIES + 1)`, modelled by structural
recursion on the remaining attempts (`fuel`), carrying the current
1-based `attempt` number and `last_error`.  When the loop falls through,
the link is failed with the literal message `'Max retries exceeded'`
while the returned record's reason is `last_error or 'Max retries
exceeded'`. -/
def processAttemptsAux (env : Env)
    (gwOpt : Option (Nat → GatewayResponse)) (link : LinkRow) :
    Nat → Nat → Option String → WS → Detail × WS
  | _, 0, lastError, s =>
      let s := wsSetStatus s link.id "failed" (some "Max retries exceeded")
      ({ linkId := link.id, url := link.url, status := "failed",
         reason := some (pyOrS lastError "Max retries exceeded"),
         title := none }, s)
  | attempt, fuel + 1, lastError, s =>
      match gwOpt with
      | none =>
          let s := wsSetStatus s link.id "pending"
            (some "AI processor not configured")
          ({ linkId := link.id, url := link.url, status := "skipped",
             reason := some "AI processor not configured",
             title := none }, s)
      | some gw =>
          let s := { s with trace := s.trace ++ [Ev.gwCall link.id attempt] }
          match gw attempt with
          | .raises msg =>
              processAttemptsAux env gwOpt link (attempt + 1) fuel (some msg) s
          | .ret none =>
              processAttemptsAux env gwOpt link (attempt + 1) fuel
                (some "processing returned none") s
          | .ret (some r) =>
              if r.blocked then
                let s := handle_blacklisted_link env link r s
                ({ linkId := link.id, url := link.url, status := "blocked",
                   reason := some (pyOrS r.blockReason
                     (pyOrS r.error "Blocked by reader")),
                   title := pyOrOpt (link.title.getD "") r.title }, s)
              else if r.success then
                let s := wsSaveContent s link.id (payloadOf r)
                let s := wsSetStatus s link.id "completed" none
                ({ linkId := link.id, url := link.url, status := "success",
                   reason := none,
                   title := some (pyOrS r.title (link.title.getD "")) }, s)
              else
                processAttemptsAux env gwOpt link (attempt + 1) fuel
                  (some (r.error.getD "Unknown error")) s

/-- `processor_worker.py::_process_single_link`: run the retry loop from
attempt 1 with `MAX_RETRIES` attempts available and no recorded error. -/
def process_single_link (env : Env)
    (gwOpt : Option (Nat → GatewayResponse)) (link : LinkRow) (s : WS) :
    Detail × WS :=
  processAttemptsAux env gwOpt link 1 MAX_RETRIES none s

/-- Per-domain statistics record of `_process_domain`. -/
structure DomainStats where
  total : Nat
  success : Nat
  failed : Nat
  skipped : Nat
  details : List Detail
deriving Repr, DecidableEq

/-- One iteration of `_process_domain`'s per-link loop: rate-limit wait,
blacklist short-circuit (reason `'Domain blacklisted'`, counted as
skipped, no `processing` transition, no gateway call), otherwise
transition to `processing` and run `_process_single_link`, then bump the
counter selected by the returned status and append the detail record. -/
def processDomainStep (env : Env)
    (gwOpt : Option (Nat → GatewayResponse)) (domain : String)
    (acc : WS × DomainStats) (link : LinkRow) : WS × DomainStats :=
  let (ws, st) := acc
  let ws := { ws with trace := ws.trace ++ [Ev.rateWait domain] }
  if is_domain_blacklisted ws.db domain then
    let ws := wsSetStatus ws link.id "blocked" (some "Domain blacklisted")
    (ws, { st with
            skipped := st.skipped + 1,
            details := st.details ++
              [{ linkId := link.id, url := link.url, status := "blocked",
                 reason := some "Domain blacklisted", title := none }] })
  else
    let ws := wsSetStatus ws link.id "processing" none
    let (d, ws) := process_single_link env gwOpt link ws
    let st :=
      if d.status = "success" then { st with success := st.success + 1 }
      else if d.status = "blocked" then { st with skipped := st.skipped + 1 }
      else if d.status = "skipped" then { st with skipped := st.skipped + 1 }
      else { st with failed := st.failed + 1 }
    (ws, { st with details := st.details ++ [d] })

/-- `processor_worker.py::_process_domain`: the sequential per-link loop
over one domain group. -/
def process_domain (env : Env)
    (gwOpt : Option (Nat → GatewayResponse)) (domain : String)
    (links : List LinkRow) (ws : WS) : WS × DomainStats :=
  links.foldl (processDomainStep env gwOpt domain)
    (ws, { total := links.length, success := 0, failed := 0, skipped := 0,
           details := [] })

/-- One insertion of `_group_by_domain`'s `defaultdict(list)` loop:
append the link to its domain's group, creating the group (at the end,
first-seen key order) when absent. -/
def groupStep (env : Env) (groups : List (String × List LinkRow))
    (link : LinkRow) : List (String × List LinkRow) :=
  let d := env.extractDomain link.url
  if groups.any (fun g => g.1 = d) then
    groups.map (fun g => if g.1 = d then (g.1, g.2 ++ [link]) else g)
  else
    groups ++ [(d, [link])]

/-- `processor_worker.py::_group_by_domain`: `defaultdict(list)`
insertion — first-seen key order, input order inside each group. -/
def group_by_domain (env : Env) (links : List LinkRow) :
    List (String × List LinkRow) :=
  links.foldl (groupStep env) []

/-- Aggregate statistics record of `_process_domains`. -/
structure AggStats where
  total : Nat
  success : Nat
  failed : Nat
  skipped : Nat
  byDomain : List (String × DomainStats)
  details : List Detail
deriving Repr, DecidableEq

/-- Empty aggregate, as initialised by `_process_domains`. -/
def emptyAgg : AggStats :=
  { total := 0, success := 0, failed := 0, skipped := 0, byDomain := [],
    details := [] }

/-- Merging one finished domain's stats into the aggregate
(`_process_domains`' `as_completed` loop body). -/
def processDomainsStep (env : Env)
    (gwOpt : Option (Nat → GatewayResponse))
    (acc : WS × AggStats) (g : String × List LinkRow) : WS × AggStats :=
  let (ws, a) := acc
  let (ws', st) := process_domain env gwOpt g.1 g.2 ws
  (ws',
   { total := a.total + st.total, success := a.success + st.success,
     failed := a.failed + st.failed, skipped := a.skipped + st.skipped,
     byDomain := a.byDomain ++ [(g.1, st)],
     details := a.details ++ st.details })

/-- `processor_worker.py::_process_domains`: the thread pool is modelled
as a sequential fold over the groups (cross-domain completion order is
unspecified in the source; per-domain content is order-exact). -/
def process_domains (env : Env)
    (gwOpt : Option (Nat → GatewayResponse))
    (groups : List (String × List LinkRow)) (ws : WS) : WS × AggStats :=
  groups.foldl (processDomainsStep env gwOpt) (ws, emptyAgg)

/-- `processor_worker.py::process_pending_links`: fetch pending links
(pending status only), group by domain, process. -/
def process_pending_links (env : Env)
    (gwOpt : Option (Nat → GatewayResponse)) (db : DBState)
    (limit : Nat) : WS × AggStats :=
  let pending := get_pending_links db limit
  if pending.isEmpty then ({ db := db, trace := [] }, emptyAgg)
  else process_domains env gwOpt (group_by_domain env pending)
    { db := db, trace := [] }

/-- `processor_worker.py::process_specific_links`: fetch the given ids
(any status — `get_links_by_ids` has no status filter), group, process. -/
def process_specific_links (env : Env)
    (gwOpt : Option (Nat → GatewayResponse)) (db : DBState)
    (linkIds : List Nat) : WS × AggStats :=
  let links := get_links_by_ids db linkIds
  if links.isEmpty then ({ db := db, trace := [] }, emptyAgg)
  else process_domains env gwOpt (group_by_domain env links)
    { db := db, trace := [] }

/-! Concrete fixtures used to instantiate theorems with hypotheses. -/

/-- Environment whose domain extraction and url-title helpers are the
identity (legitimate instances of the abstract collaborators). -/
def envId : Env :=
  { extractDomain := fun s => s, titleFromUrl := fun s => s }

/-- A stored pending link. -/
def linkEx : LinkRow :=
  { id := 1, url := "http://a.com/x", urlHash := "h1", title := none,
    sourceTask := some "t", status := "pending", errorMessage := none,
    processedAt := none, discoveredAt := 3 }

/-- A one-link database in which `linkEx` is pending. -/
def exDb : DBState :=
  { links := [linkEx], content := [], blacklist := [], nextId := 2, now := 7 }

/-- Worker state over `exDb` with an empty trace. -/
def wsEx : WS := { db := exDb, trace := [] }

/-- A blacklist entry for the domain `"http://a.com/x"` (the domain
`envId` extracts from `linkEx.url`). -/
def blRowEx : BlacklistRow :=
  { domain := "http://a.com/x", url := "u", title := none, reason := none }

/-- `exDb` with the domain `"http://a.com/x"` (as produced by `envId`)
already blacklisted. -/
def blDomDb : DBState := { exDb with blacklist := [blRowEx] }

/-- Worker state over `blDomDb`. -/
def wsBl : WS := { db := blDomDb, trace := [] }

/-- Empty per-domain statistics for one link. -/
def st0 : DomainStats :=
  { total := 1, success := 0, failed := 0, skipped := 0, details := [] }

/-- A gateway result dict with every key absent / falsy. -/
def baseDict : GatewayResultDict :=
  { blocked := false, success := false, error := none, blockReason := none,
    title := none, titleEn := none, titleZh := none, titleMs := none,
    content := none, translatedContent := none, tags := none,
    country := none, newsDate := none, metadata := none,
    metadataBlockReason := none }

/-- A gateway stub that always returns `None`. -/
def gwNoneStub : Nat → GatewayResponse := fun _ => GatewayResponse.ret none

/-- A gateway stub that always returns an error dict with text `"boom"`. -/
def gwBoomStub : Nat → GatewayResponse :=
  fun _ => GatewayResponse.ret (some { baseDict with error := some "boom" })

/-- A blocked gateway result. -/
def blockedDictEx : GatewayResultDict :=
  { baseDict with blocked := true, blockReason := some "robots" }

/-- A successful gateway result. -/
def successDictEx : GatewayResultDict :=
  { baseDict with success := true, title := some "T", content := some "body" }

/-! Helper lemmas shared between claims. -/

/-- `update_link_status` never touches the blacklist table. -/
theorem update_link_status_blacklist (db : DBState) (linkId : Nat)
    (status : String) (err : Option String) :
    (update_link_status db linkId status err).blacklist = db.blacklist := by
  unfold update_link_status
  split <;> rfl

/-- After `add_blacklisted_site` the blacklist holds an entry keyed by
`blKey domain url`. -/
theorem add_blacklisted_site_has_key (db : DBState) (domain : Option String)
    (url : String) (title reason : Option String) :
    (add_blacklisted_site db domain url title reason).blacklist.any
      (fun b => b.domain = blKey domain url) = true := by
  unfold add_blacklisted_site
  by_cases hp : db.blacklist.any (fun b => b.domain = blKey domain url) = true
  · rw [if_pos hp]
    rw [List.any_eq_true] at hp ⊢
    obtain ⟨b0, hb0, hd⟩ := hp
    refine ⟨if b0.domain = blKey domain url
            then { b0 with url := url, title := title, reason := reason }
            else b0, List.mem_map_of_mem _ hb0, ?_⟩
    simp only [decide_eq_true_eq] at hd
    simp [hd]
  · rw [if_neg hp]
    simp

/-! Claim C1. -/

/-- Claim C1, counterexample: transitioning the stored pending link to
`blocked` sets its status and error message but leaves `processed_at`
unchanged (`none`), although the claim states that `blocked` stamps
`processedAt`.  The stamping branch of `update_link_status` only fires
for `'completed'` and `'failed'`. -/
theorem C1_counterexample :
    statusOf (update_link_status exDb 1 "blocked" (some "x")) 1 = some "blocked"
  ∧ errMsgOf (update_link_status exDb 1 "blocked" (some "x")) 1 = some (some "x")
  ∧ processedAtOf exDb 1 = some none
  ∧ processedAtOf (update_link_status exDb 1 "blocked" (some "x")) 1 = some none := by
  decide

/-- Claim C1, amended: `update_link_status` stamps `processed_at` with the
current timestamp exactly for the new statuses `'completed'` and
`'failed'`; for `'blocked'` and for `'processing'` every row's
`processed_at` is left unchanged. -/
theorem C1_amended (db : DBState) (lid : Nat) (err : Option String) :
    ((update_link_status db lid "completed" err).links.map (fun r => r.processedAt)
        = db.links.map (fun r => if r.id = lid then some db.now else r.processedAt))
  ∧ ((update_link_status db lid "failed" err).links.map (fun r => r.processedAt)
        = db.links.map (fun r => if r.id = lid then some db.now else r.processedAt))
  ∧ ((update_link_status db lid "blocked" err).links.map (fun r => r.processedAt)
        = db.links.map (fun r => r.processedAt))
  ∧ ((update_link_status db lid "processing" err).links.map (fun r => r.processedAt)
        = db.links.map (fun r => r.processedAt)) := by
  refine ⟨?_, ?_, ?_, ?_⟩
  · unfold update_link_status
    rw [if_pos (Or.inl rfl), List.map_map]
    refine List.map_congr_left ?_
    intro r _
    by_cases h : r.id = lid <;> simp [h]
  · unfold update_link_status
    rw [if_pos (Or.inr rfl), List.map_map]
    refine List.map_congr_left ?_
    intro r _
    by_cases h : r.id = lid <;> simp [h]
  · unfold update_link_status
    rw [if_neg (by decide), List.map_map]
    refine List.map_congr_left ?_
    intro r _
    by_cases h : r.id = lid <;> simp [h]
  · unfold update_link_status
    rw [if_neg (by decide), List.map_map]
    refine List.map_congr_left ?_
    intro r _
    by_cases h : r.id = lid <;> simp [h]

/-! Claim C4. -/

/-- Claim C4: `insert_news_link` is idempotent per fingerprint.  Starting
from a database holding no row with fingerprint `uh`, the first call
returns the fresh id; the second call with the same fingerprint returns
no id and leaves the state untouched (and, being a total function, does
not raise); afterwards exactly one stored row carries `uh`. -/
theorem C4_insert_idempotent (db : DBState) (u1 u2 uh s1 s2 : String)
    (t1 t2 : Option String) (h0 : countHash db uh = 0) :
    (insert_news_link db u1 uh s1 t1).1 = some db.nextId
  ∧ insert_news_link (insert_news_link db u1 uh s1 t1).2 u2 uh s2 t2
      = (none, (insert_news_link db u1 uh s1 t1).2)
  ∧ countHash (insert_news_link (insert_news_link db u1 uh s1 t1).2 u2 uh s2 t2).2 uh
      = 1 := by
  have hf : db.links.filter (fun r => r.urlHash = uh) = [] :=
    List.length_eq_zero.mp h0
  have hall : ∀ r ∈ db.links, ¬ (r.urlHash = uh) := by
    intro r hr hcontra
    have hmem : r ∈ db.links.filter (fun r => r.urlHash = uh) :=
      List.mem_filter.mpr ⟨hr, by simp [hcontra]⟩
    rw [hf] at hmem
    exact absurd hmem (List.not_mem_nil r)
  have hnot : ¬ (db.links.any (fun r => r.urlHash = uh) = true) := by
    rw [List.any_eq_true]
    rintro ⟨r, hr, hp⟩
    exact hall r hr (by simpa using hp)
  have h1 : insert_news_link db u1 uh s1 t1 =
      (some db.nextId,
       { db with
          links := db.links ++
            [{ id := db.nextId, url := u1, urlHash := uh, title := t1,
               sourceTask := some s1, status := "pending",
               errorMessage := none, processedAt := none,
               discoveredAt := db.now }],
          nextId := db.nextId + 1 }) := by
    unfold insert_news_link
    rw [if_neg hnot]
  rw [h1]
  have hyes : ((db.links ++
      [{ id := db.nextId, url := u1, urlHash := uh, title := t1,
         sourceTask := some s1, status := "pending",
         errorMessage := none, processedAt := none,
         discoveredAt := db.now }] : List LinkRow).any
        (fun r => r.urlHash = uh)) = true := by
    rw [List.any_eq_true]
    exact ⟨_, List.mem_append_right _ (List.mem_singleton_self _), by simp⟩
  refine ⟨rfl, ?_, ?_⟩
  · unfold insert_news_link
    rw [if_pos hyes]
  · unfold insert_news_link
    rw [if_pos hyes]
    simp [countHash, List.filter_append, hf]

/-- An empty database with `nextId = 5`, for the C4 witness. -/
def emptyDb5 : DBState :=
  { links := [], content := [], blacklist := [], nextId := 5, now := 9 }

/-- Claim C4, witness: a concrete database with no `"h1"` fingerprint;
both conclusions evaluate. -/
theorem C4_witness :
    (insert_news_link emptyDb5 "u" "h1" "t" none).1 = some 5
  ∧ insert_news_link (insert_news_link emptyDb5 "u" "h1" "t" none).2
        "u2" "h1" "t2" none
      = (none, (insert_news_link emptyDb5 "u" "h1" "t" none).2)
  ∧ countHash (insert_news_link
        (insert_news_link emptyDb5 "u" "h1" "t" none).2
        "u2" "h1" "t2" none).2 "h1" = 1 :=
  C4_insert_idempotent emptyDb5 "u" "u2" "h1" "t" "t2" none none (by decide)

/-! Claim C10. -/

/-- Claim C10: with an empty or `None` domain, `add_blacklisted_site`
substitutes the full url as the unique blacklist key: the call behaves
exactly as if the url had been passed as the domain, the operation is
total (never fails), and afterwards an entry keyed by the url string is
present. -/
theorem C10_empty_domain_keys_by_url (db : DBState) (domain : Option String)
    (url : String) (title reason : Option String)
    (h : domain = none ∨ domain = some "") :
    add_blacklisted_site db domain url title reason
      = add_blacklisted_site db (some url) url title reason
  ∧ ((add_blacklisted_site db domain url title reason).blacklist.any
      (fun b => b.domain = url)) = true := by
  have hkey : blKey domain url = url := by
    rcases h with h | h <;> simp [blKey, h]
  have hkey2 : blKey (some url) url = url := by
    simp [blKey]
  constructor
  · unfold add_blacklisted_site
    rw [hkey, hkey2]
  · have := add_blacklisted_site_has_key db domain url title reason
    rwa [hkey] at this

/-- Claim C10, witness: concrete call with the empty-string domain. -/
theorem C10_witness :
    add_blacklisted_site exDb (some "") "http://b.com" (some "T") (some "R")
      = add_blacklisted_site exDb (some "http://b.com") "http://b.com"
          (some "T") (some "R")
  ∧ ((add_blacklisted_site exDb (some "") "http://b.com" (some "T")
        (some "R")).blacklist.any
      (fun b => b.domain = "http://b.com")) = true :=
  C10_empty_domain_keys_by_url exDb (some "") "http://b.com" (some "T")
    (some "R") (Or.inr rfl)

/-- A gateway stub that always reports a blocked outcome. -/
def gwBlockedStub : Nat → GatewayResponse :=
  fun _ => GatewayResponse.ret (some blockedDictEx)

/-- A gateway stub that always succeeds. -/
def gwSuccessStub : Nat → GatewayResponse :=
  fun _ => GatewayResponse.ret (some successDictEx)

/-! Claim C5. -/

/-- Claim C5 (amended: the stored reason string is the source's literal
`'Domain blacklisted'`, capitalised).  When the domain is blacklisted at
the moment the Domain Worker reaches a link, the step performs exactly a
rate-limit wait followed by one status transition straight to `blocked`
with reason `'Domain blacklisted'` — no `processing` transition and no
gateway call appear in the trace — counts the link as skipped, appends
the corresponding detail record, and the loop continues with the
remaining links of the group. -/
theorem C5_blacklist_short_circuit (env : Env)
    (gwOpt : Option (Nat → GatewayResponse)) (domain : String)
    (ws : WS) (st : DomainStats) (link : LinkRow) (rest : List LinkRow)
    (hbl : is_domain_blacklisted ws.db domain = true) :
    processDomainStep env gwOpt domain (ws, st) link =
      ({ db := update_link_status ws.db link.id "blocked"
            (some "Domain blacklisted"),
         trace := ws.trace ++ [Ev.rateWait domain,
           Ev.dbSetStatus link.id "blocked" (some "Domain blacklisted")] },
       { st with skipped := st.skipped + 1,
                 details := st.details ++
                   [{ linkId := link.id, url := link.url,
                      status := "blocked",
                      reason := some "Domain blacklisted", title := none }] })
  ∧ List.foldl (processDomainStep env gwOpt domain) (ws, st) (link :: rest)
      = List.foldl (processDomainStep env gwOpt domain)
          (processDomainStep env gwOpt domain (ws, st) link) rest := by
  constructor
  · simp only [processDomainStep, wsSetStatus, hbl, if_true]
    simp [List.append_assoc]
  · rfl

/-- Claim C5, witness: `blDomDb` blacklists `linkEx`'s domain; the step
short-circuits it. -/
theorem C5_witness :
    processDomainStep envId none "http://a.com/x" (wsBl, st0) linkEx =
      ({ db := update_link_status wsBl.db linkEx.id "blocked"
            (some "Domain blacklisted"),
         trace := wsBl.trace ++ [Ev.rateWait "http://a.com/x",
           Ev.dbSetStatus linkEx.id "blocked" (some "Domain blacklisted")] },
       { st0 with skipped := st0.skipped + 1,
                  details := st0.details ++
                    [{ linkId := linkEx.id, url := linkEx.url,
                       status := "blocked",
                       reason := some "Domain blacklisted", title := none }] })
  ∧ List.foldl (processDomainStep envId none "http://a.com/x")
        (wsBl, st0) (linkEx :: [])
      = List.foldl (processDomainStep envId none "http://a.com/x")
          (processDomainStep envId none "http://a.com/x" (wsBl, st0) linkEx)
          [] :=
  C5_blacklist_short_circuit envId none "http://a.com/x" wsBl st0 linkEx []
    (by decide)

/-- Claim C5, counterexample for the quoted reason string: the blacklist
short-circuit stores the error message `'Domain blacklisted'`, which is
not the claimed string `"domain blacklisted"`. -/
theorem C5_counterexample :
    statusOf (processDomainStep envId none "http://a.com/x"
        (wsBl, st0) linkEx).1.db 1 = some "blocked"
  ∧ errMsgOf (processDomainStep envId none "http://a.com/x"
        (wsBl, st0) linkEx).1.db 1 = some (some "Domain blacklisted")
  ∧ (some (some "Domain blacklisted") : Option (Option String))
      ≠ some (some "domain blacklisted") := by
  decide

/-! Claim C6. -/

/-- Claim C6: whenever the gateway reports a blocked outcome at any
attempt with fuel remaining, the worker upserts a blacklist entry keyed
by the link's domain, transitions the link to `blocked`, and returns
immediately: the trace gains exactly one gateway call (this attempt), the
blacklist upsert, and the `blocked` status write — no further gateway
attempt.  Afterwards the blacklist holds an entry for that key. -/
theorem C6_blocked_terminal (env : Env) (gw : Nat → GatewayResponse)
    (link : LinkRow) (attempt fuel : Nat) (lastError : Option String)
    (ws : WS) (r : GatewayResultDict)
    (hret : gw attempt = GatewayResponse.ret (some r))
    (hb : r.blocked = true) :
    processAttemptsAux env (some gw) link attempt (fuel + 1) lastError ws =
      ({ linkId := link.id, url := link.url, status := "blocked",
         reason := some (pyOrS r.blockReason
           (pyOrS r.error "Blocked by reader")),
         title := pyOrOpt (link.title.getD "") r.title },
       { db := update_link_status
            (add_blacklisted_site ws.db (some (env.extractDomain link.url))
              link.url (some (pyOrS link.title (env.titleFromUrl link.url)))
              (some (pyOrS r.blockReason
                (r.metadataBlockReason.getD "Reader blocked"))))
            link.id "blocked"
            (some (pyOrS r.blockReason
              (r.metadataBlockReason.getD "Reader blocked"))),
         trace := ws.trace ++ [Ev.gwCall link.id attempt,
           Ev.dbUpsertBlacklist
             (blKey (some (env.extractDomain link.url)) link.url),
           Ev.dbSetStatus link.id "blocked"
             (some (pyOrS r.blockReason
               (r.metadataBlockReason.getD "Reader blocked")))] })
  ∧ ((processAttemptsAux env (some gw) link attempt (fuel + 1) lastError
        ws).2.db.blacklist.any
      (fun b => b.domain = blKey (some (env.extractDomain link.url))
        link.url)) = true := by
  have heq : processAttemptsAux env (some gw) link attempt (fuel + 1)
      lastError ws =
      ({ linkId := link.id, url := link.url, status := "blocked",
         reason := some (pyOrS r.blockReason
           (pyOrS r.error "Blocked by reader")),
         title := pyOrOpt (link.title.getD "") r.title },
       { db := update_link_status
            (add_blacklisted_site ws.db (some (env.extractDomain link.url))
              link.url (some (pyOrS link.title (env.titleFromUrl link.url)))
              (some (pyOrS r.blockReason
                (r.metadataBlockReason.getD "Reader blocked"))))
            link.id "blocked"
            (some (pyOrS r.blockReason
              (r.metadataBlockReason.getD "Reader blocked"))),
         trace := ws.trace ++ [Ev.gwCall link.id attempt,
           Ev.dbUpsertBlacklist
             (blKey (some (env.extractDomain link.url)) link.url),
           Ev.dbSetStatus link.id "blocked"
             (some (pyOrS r.blockReason
               (r.metadataBlockReason.getD "Reader blocked")))] }) := by
    simp only [processAttemptsAux, hret]
    simp [hb, handle_blacklisted_link, wsUpsertBlacklist, wsSetStatus,
      List.append_assoc]
  refine ⟨heq, ?_⟩
  rw [heq]
  rw [update_link_status_blacklist]
  exact add_blacklisted_site_has_key ws.db _ link.url _ _

/-- Claim C6, witness: a blocked gateway response on attempt 1. -/
theorem C6_witness :
    (processAttemptsAux envId (some gwBlockedStub) linkEx 1 (1 + 1) none
        wsEx).1.status = "blocked"
  ∧ ((processAttemptsAux envId (some gwBlockedStub) linkEx 1 (1 + 1) none
        wsEx).2.db.blacklist.any
      (fun b => b.domain = blKey (some (envId.extractDomain linkEx.url))
        linkEx.url)) = true := by
  have h := C6_blocked_terminal envId gwBlockedStub linkEx 1 1 none wsEx
    blockedDictEx rfl rfl
  exact ⟨by rw [h.1], h.2⟩

/-! Claim C7. -/

/-- Claim C7: on a success outcome the enriched content is upserted
strictly before the status flip to `completed`: the resulting database is
`update_link_status (save_processed_content ...) ... 'completed'` (the
content write is applied first), and the appended trace is exactly
gateway call, `dbSaveContent`, then `dbSetStatus 'completed'` — so no
observable state has the `completed` status without the content saved. -/
theorem C7_save_before_complete (env : Env) (gw : Nat → GatewayResponse)
    (link : LinkRow) (attempt fuel : Nat) (lastError : Option String)
    (ws : WS) (r : GatewayResultDict)
    (hret : gw attempt = GatewayResponse.ret (some r))
    (hnb : r.blocked = false) (hs : r.success = true) :
    processAttemptsAux env (some gw) link attempt (fuel + 1) lastError ws =
      ({ linkId := link.id, url := link.url, status := "success",
         reason := none,
         title := some (pyOrS r.title (link.title.getD "")) },
       { db := update_link_status
            (save_processed_content ws.db link.id (payloadOf r))
            link.id "completed" none,
         trace := ws.trace ++ [Ev.gwCall link.id attempt,
           Ev.dbSaveContent link.id,
           Ev.dbSetStatus link.id "completed" none] }) := by
  simp only [processAttemptsAux, hret]
  simp [hnb, hs, wsSaveContent, wsSetStatus, List.append_assoc]

/-- Claim C7, witness: a successful gateway response on attempt 1. -/
theorem C7_witness :
    processAttemptsAux envId (some gwSuccessStub) linkEx 1 (1 + 1) none
        wsEx =
      ({ linkId := linkEx.id, url := linkEx.url, status := "success",
         reason := none,
         title := some (pyOrS successDictEx.title (linkEx.title.getD "")) },
       { db := update_link_status
            (save_processed_content wsEx.db linkEx.id
              (payloadOf successDictEx))
            linkEx.id "completed" none,
         trace := wsEx.trace ++ [Ev.gwCall linkEx.id 1,
           Ev.dbSaveContent linkEx.id,
           Ev.dbSetStatus linkEx.id "completed" none] }) :=
  C7_save_before_complete envId gwSuccessStub linkEx 1 1 none wsEx
    successDictEx rfl rfl rfl

/-! Retry exhaustion: closed form of the loop when every attempt fails. -/

/-- The value of `last_error` after `fuel` consecutive FAILURE attempts
starting at attempt number `attempt`, given current value `le`. -/
def lastErrAfter (gw : Nat → GatewayResponse) :
    Nat → Nat → Option String → Option String
  | _, 0, le => le
  | attempt, fuel + 1, _ =>
      lastErrAfter gw (attempt + 1) fuel (some (failureText (gw attempt)))

/-- The gateway-call events of `fuel` consecutive attempts starting at
`attempt`. -/
theorem range_succ_gwCalls (lid attempt fuel : Nat) :
    (List.range (fuel + 1)).map (fun i => Ev.gwCall lid (attempt + i))
      = Ev.gwCall lid attempt ::
        (List.range fuel).map (fun i => Ev.gwCall lid (attempt + 1 + i)) := by
  rw [List.range_succ_eq_map]
  simp only [List.map_cons, List.map_map, Nat.add_zero]
  refine congrArg _ ?_
  refine List.map_congr_left ?_
  intro i _
  simp only [Function.comp_apply]
  congr 1
  omega

/-- Closed form of the retry loop when every gateway response is a
FAILURE: the loop consumes all `fuel` attempts (one gateway call each),
then writes status `failed` with the literal message
`'Max retries exceeded'`, returning the accumulated last error as the
record's reason. -/
theorem processAttemptsAux_all_fail (env : Env)
    (gw : Nat → GatewayResponse) (link : LinkRow)
    (hfail : ∀ n, isFailureResponse (gw n) = true) (fuel : Nat) :
    ∀ (attempt : Nat) (le : Option String) (ws : WS),
    processAttemptsAux env (some gw) link attempt fuel le ws =
      ({ linkId := link.id, url := link.url, status := "failed",
         reason := some (pyOrS (lastErrAfter gw attempt fuel le)
           "Max retries exceeded"),
         title := none },
       { db := update_link_status ws.db link.id "failed"
            (some "Max retries exceeded"),
         trace := ws.trace ++
           (List.range fuel).map (fun i => Ev.gwCall link.id (attempt + i))
           ++ [Ev.dbSetStatus link.id "failed"
                (some "Max retries exceeded")] }) := by
  induction fuel with
  | zero =>
      intro attempt le ws
      simp [processAttemptsAux, lastErrAfter, wsSetStatus]
  | succ fuel ih =>
      intro attempt le ws
      have hf := hfail attempt
      rw [range_succ_gwCalls]
      rcases hgw : gw attempt with r | msg
      · rcases r with _ | r
        · simp only [processAttemptsAux, hgw]
          rw [ih (attempt + 1) (some "processing returned none") _]
          simp [lastErrAfter, hgw, failureText, List.append_assoc]
        · rw [hgw] at hf
          simp only [isFailureResponse, Bool.and_eq_true,
            Bool.not_eq_true'] at hf
          obtain ⟨hb, hs⟩ := hf
          simp only [processAttemptsAux, hgw, hb, hs]
          rw [ih (attempt + 1) (some (r.error.getD "Unknown error")) _]
          simp [lastErrAfter, hgw, failureText, List.append_assoc]
      · simp only [processAttemptsAux, hgw]
        rw [ih (attempt + 1) (some msg) _]
        simp [lastErrAfter, hgw, failureText, List.append_assoc]

/-- Count of gateway invocations recorded for a link in a trace. -/
def countGwCalls (tr : List Ev) (lid : Nat) : Nat :=
  (tr.filter (fun e => match e with
    | Ev.gwCall i _ => i = lid
    | _ => false)).length

/-! Claim C2. -/

/-- Claim C2: with a configured gateway whose every attempt is a FAILURE
outcome (error result, `None` result, or raised exception),
`_process_single_link` invokes the gateway exactly `MAX_RETRIES` times
for the link and then transitions it to status `failed`. -/
theorem C2_retry_exhaustion (env : Env) (gw : Nat → GatewayResponse)
    (link : LinkRow) (ws : WS)
    (hfail : ∀ n, isFailureResponse (gw n) = true) :
    countGwCalls (process_single_link env (some gw) link ws).2.trace link.id
      = countGwCalls ws.trace link.id + MAX_RETRIES
  ∧ (process_single_link env (some gw) link ws).1.status = "failed"
  ∧ (process_single_link env (some gw) link ws).2.db
      = update_link_status ws.db link.id "failed"
          (some "Max retries exceeded") := by
  have h := processAttemptsAux_all_fail env gw link hfail MAX_RETRIES 1
    none ws
  rw [process_single_link, h]
  refine ⟨?_, rfl, rfl⟩
  have hall : ∀ e ∈ (List.range MAX_RETRIES).map
      (fun i => Ev.gwCall link.id (1 + i)),
      (fun e => match e with
        | Ev.gwCall i _ => i = link.id
        | _ => false : Ev → Bool) e = true := by
    intro e he
    rw [List.mem_map] at he
    obtain ⟨i, _, rfl⟩ := he
    simp
  simp only [countGwCalls, List.filter_append,
    List.filter_eq_self.mpr hall]
  simp [List.length_append]

/-- Claim C2, witness: the always-`None` gateway stub over the concrete
pending link. -/
theorem C2_witness :
    countGwCalls (process_single_link envId (some gwNoneStub) linkEx
        wsEx).2.trace linkEx.id
      = countGwCalls wsEx.trace linkEx.id + MAX_RETRIES
  ∧ (process_single_link envId (some gwNoneStub) linkEx wsEx).1.status
      = "failed"
  ∧ (process_single_link envId (some gwNoneStub) linkEx wsEx).2.db
      = update_link_status wsEx.db linkEx.id "failed"
          (some "Max retries exceeded") :=
  C2_retry_exhaustion envId gwNoneStub linkEx wsEx (fun _ => rfl)

/-! Claim C3. -/

/-- Claim C3, counterexample: with a gateway that always returns an error
dict with text `"boom"`, the exhausted link's stored `error_message` is
the literal `'Max retries exceeded'`, not the last error text `"boom"`
that appears in the outcome record's reason — refuting the claim that
the stored errorMessage equals the record's reason. -/
theorem C3_counterexample :
    (process_single_link envId (some gwBoomStub) linkEx wsEx).1.reason
      = some "boom"
  ∧ errMsgOf (process_single_link envId (some gwBoomStub) linkEx wsEx).2.db 1
      = some (some "Max retries exceeded")
  ∧ (some "Max retries exceeded" : Option String) ≠ some "boom" := by
  decide

/-- Claim C3, amended: when all attempts are exhausted without a success
or blocked outcome, the link is transitioned to `failed` with the fixed
errorMessage `'Max retries exceeded'`; the last attempt's error text is
preserved only in the per-link outcome record's reason, computed as
Python's `last_error or 'Max retries exceeded'` — so it falls back to
`'Max retries exceeded'` when no error was recorded or the recorded
text is the empty string. -/
theorem C3_exhaustion_messages (env : Env) (gw : Nat → GatewayResponse)
    (link : LinkRow) (ws : WS)
    (hfail : ∀ n, isFailureResponse (gw n) = true) :
    (process_single_link env (some gw) link ws).2.db
      = update_link_status ws.db link.id "failed"
          (some "Max retries exceeded")
  ∧ (process_single_link env (some gw) link ws).1.reason
      = some (pyOrS (lastErrAfter gw 1 MAX_RETRIES none)
          "Max retries exceeded")
  ∧ (process_single_link env (some gw) link ws).2.trace
      = ws.trace ++ (List.range MAX_RETRIES).map
          (fun i => Ev.gwCall link.id (1 + i))
        ++ [Ev.dbSetStatus link.id "failed"
             (some "Max retries exceeded")] := by
  have h := processAttemptsAux_all_fail env gw link hfail MAX_RETRIES 1
    none ws
  rw [process_single_link, h]
  exact ⟨rfl, rfl, rfl⟩

/-- Claim C3, witness for the amended statement: the `"boom"` gateway
stub; the last error surfaces in the record's reason. -/
theorem C3_witness :
    (process_single_link envId (some gwBoomStub) linkEx wsEx).2.db
      = update_link_status wsEx.db linkEx.id "failed"
          (some "Max retries exceeded")
  ∧ (process_single_link envId (some gwBoomStub) linkEx wsEx).1.reason
      = some (pyOrS (lastErrAfter gwBoomStub 1 MAX_RETRIES none)
          "Max retries exceeded")
  ∧ (process_single_link envId (some gwBoomStub) linkEx wsEx).2.trace
      = wsEx.trace ++ (List.range MAX_RETRIES).map
          (fun i => Ev.gwCall linkEx.id (1 + i))
        ++ [Ev.dbSetStatus linkEx.id "failed"
             (some "Max retries exceeded")] :=
  C3_exhaustion_messages envId gwBoomStub linkEx wsEx (fun _ => rfl)

/-! Grouping invariant: `_group_by_domain` is a stable, order-preserving
partition of its input. -/

/-- Pointwise-equal predicates give equal `any`. -/
theorem anyCongr {α : Type} (l : List α) (p q : α → Bool)
    (h : ∀ a ∈ l, p a = q a) : l.any p = l.any q := by
  induction l with
  | nil => rfl
  | cons a l ih =>
      simp only [List.any_cons]
      rw [h a (List.mem_cons_self a l), ih (fun b hb => h b (List.mem_cons_of_mem a hb))]

/-- One `groupStep` preserves the partition invariant: every group is the
order-preserving filter of the consumed input, and keys absent from the
accumulator have an empty filter. -/
theorem groupStep_invariant (env : Env) (pref : List LinkRow)
    (acc : List (String × List LinkRow)) (link : LinkRow)
    (h1 : ∀ p ∈ acc,
      p.2 = pref.filter (fun l => env.extractDomain l.url = p.1))
    (h2 : ∀ d, acc.any (fun g => g.1 = d) = false →
      pref.filter (fun l => env.extractDomain l.url = d) = []) :
    (∀ p ∈ groupStep env acc link,
      p.2 = (pref ++ [link]).filter (fun l => env.extractDomain l.url = p.1))
  ∧ (∀ d, (groupStep env acc link).any (fun g => g.1 = d) = false →
      (pref ++ [link]).filter (fun l => env.extractDomain l.url = d) = []) := by
  unfold groupStep
  by_cases hmem : acc.any
      (fun g => g.1 = env.extractDomain link.url) = true
  · rw [if_pos hmem]
    have hkeys : ∀ d,
        ((acc.map (fun g =>
          if g.1 = env.extractDomain link.url then (g.1, g.2 ++ [link])
          else g)).any (fun g => g.1 = d))
          = acc.any (fun g => g.1 = d) := by
      intro d
      rw [List.any_map]
      refine anyCongr acc _ _ ?_
      intro g _
      by_cases hg : g.1 = env.extractDomain link.url <;>
        simp [Function.comp, hg]
    constructor
    · intro p hp
      rw [List.mem_map] at hp
      obtain ⟨g, hg, rfl⟩ := hp
      by_cases hd : g.1 = env.extractDomain link.url
      · rw [if_pos hd]
        have hgl := h1 g hg
        simp only [List.filter_append]
        simp [hd] at hgl ⊢
        exact hgl
      · rw [if_neg hd]
        have hne : ¬ (env.extractDomain link.url = g.1) :=
          fun h => hd h.symm
        simp only [List.filter_append]
        simp [hne]
        exact h1 g hg
    · intro d hfalse
      rw [hkeys] at hfalse
      have hne : ¬ (env.extractDomain link.url = d) := by
        intro h
        rw [h] at hmem
        rw [hmem] at hfalse
        exact Bool.noConfusion hfalse
      simp only [List.filter_append]
      simp [h2 d hfalse, hne]
  · rw [if_neg hmem]
    have hmem' : acc.any
        (fun g => g.1 = env.extractDomain link.url) = false :=
      Bool.not_eq_true _ ▸ eq_false_of_ne_true hmem
    constructor
    · intro p hp
      rcases List.mem_append.mp hp with hp | hp
      · have hne : ¬ (env.extractDomain link.url = p.1) := by
          intro h
          apply hmem
          rw [List.any_eq_true]
          exact ⟨p, hp, by simp [h]⟩
        simp only [List.filter_append]
        simp [hne]
        exact h1 p hp
      · rw [List.mem_singleton] at hp
        subst hp
        simp only [List.filter_append]
        simp [h2 _ hmem']
    · intro d hfalse
      rw [List.any_append] at hfalse
      rw [Bool.or_eq_false_iff] at hfalse
      obtain ⟨hfa, hfb⟩ := hfalse
      have hne : ¬ (env.extractDomain link.url = d) := by
        intro h
        simp [h] at hfb
      simp only [List.filter_append]
      simp [h2 d hfa, hne]

/-- Folding `groupStep` over the remaining input preserves the partition
invariant. -/
theorem groupFold_invariant (env : Env) (links : List LinkRow) :
    ∀ (pref : List LinkRow) (acc : List (String × List LinkRow)),
    (∀ p ∈ acc,
      p.2 = pref.filter (fun l => env.extractDomain l.url = p.1)) →
    (∀ d, acc.any (fun g => g.1 = d) = false →
      pref.filter (fun l => env.extractDomain l.url = d) = []) →
    ∀ p ∈ links.foldl (groupStep env) acc,
      p.2 = (pref ++ links).filter (fun l => env.extractDomain l.url = p.1) := by
  induction links with
  | nil =>
      intro pref acc h1 _ p hp
      simpa using h1 p hp
  | cons l rest ih =>
      intro pref acc h1 h2 p hp
      rw [List.foldl_cons] at hp
      have hinv := groupStep_invariant env pref acc l h1 h2
      have hres := ih (pref ++ [l]) (groupStep env acc l) hinv.1 hinv.2 p hp
      rw [List.append_assoc] at hres
      simpa using hres

/-- Every group produced by `_group_by_domain` is exactly the
order-preserving filter of the input batch by its domain key. -/
theorem group_by_domain_spec (env : Env) (links : List LinkRow) :
    ∀ p ∈ group_by_domain env links,
      p.2 = links.filter (fun l => env.extractDomain l.url = p.1) := by
  intro p hp
  have := groupFold_invariant env links [] [] (by simp) (by simp) p hp
  simpa using this

/-! Per-domain detail order. -/

/-- The outcome record of the retry loop always carries the processed
link's id. -/
theorem processAttemptsAux_linkId (env : Env)
    (gwOpt : Option (Nat → GatewayResponse)) (link : LinkRow)
    (fuel : Nat) :
    ∀ (attempt : Nat) (le : Option String) (ws : WS),
    (processAttemptsAux env gwOpt link attempt fuel le ws).1.linkId
      = link.id := by
  induction fuel with
  | zero => intro attempt le ws; simp [processAttemptsAux]
  | succ fuel ih =>
      intro attempt le ws
      rcases gwOpt with _ | gw
      · simp [processAttemptsAux]
      · simp only [processAttemptsAux]
        rcases hgw : gw attempt with r | msg
        · rcases r with _ | r
          · simp only [hgw]
            exact ih _ _ _
          · simp only [hgw]
            rcases hb : r.blocked
            · rcases hs : r.success
              · simp only [hb, hs, Bool.false_eq_true, if_false]
                exact ih _ _ _
              · simp [hb, hs]
            · simp [hb]
        · simp only [hgw]
          exact ih _ _ _

/-- The per-status counter bump of `_process_domain` never changes the
details list. -/
theorem statusBump_details (st : DomainStats) (s : String) :
    (if s = "success" then { st with success := st.success + 1 }
     else if s = "blocked" then { st with skipped := st.skipped + 1 }
     else if s = "skipped" then { st with skipped := st.skipped + 1 }
     else { st with failed := st.failed + 1 }).details = st.details := by
  by_cases h1 : s = "success" <;> by_cases h2 : s = "blocked" <;>
    by_cases h3 : s = "skipped" <;> simp [h1, h2, h3]

/-- One `_process_domain` iteration appends exactly one detail record,
and it carries the processed link's id. -/
theorem processDomainStep_detail_ids (env : Env)
    (gwOpt : Option (Nat → GatewayResponse)) (domain : String)
    (acc : WS × DomainStats) (link : LinkRow) :
    (processDomainStep env gwOpt domain acc link).2.details.map
        (fun d => d.linkId)
      = acc.2.details.map (fun d => d.linkId) ++ [link.id] := by
  rcases acc with ⟨ws, st⟩
  simp only [processDomainStep]
  by_cases hbl : is_domain_blacklisted ws.db domain = true
  · simp [hbl]
  · rw [eq_false_of_ne_true hbl]
    simp only [Bool.false_eq_true, if_false]
    have hid := processAttemptsAux_linkId env gwOpt link MAX_RETRIES 1 none
      (wsSetStatus { ws with trace := ws.trace ++ [Ev.rateWait domain] }
        link.id "processing" none)
    simp [process_single_link, statusBump_details, hid]

/-- Folding `_process_domain`'s loop emits the detail records in the
input order, one per link. -/
theorem processDomainFold_detail_ids (env : Env)
    (gwOpt : Option (Nat → GatewayResponse)) (domain : String)
    (links : List LinkRow) :
    ∀ (acc : WS × DomainStats),
    ((links.foldl (processDomainStep env gwOpt domain) acc).2.details.map
        (fun d => d.linkId))
      = acc.2.details.map (fun d => d.linkId)
        ++ links.map (fun l => l.id) := by
  induction links with
  | nil => intro acc; simp
  | cons l rest ih =>
      intro acc
      rw [List.foldl_cons, ih, processDomainStep_detail_ids]
      simp

/-! Claim C9. -/

/-- Claim C9: each domain group delivered by the Domain Partitioner is
exactly the order-preserving filter of the input batch by that domain
(relative input positions kept), and the Domain Worker's sequential
per-link loop emits exactly one per-link detail record per link of the
group, in that same order.  The loop is a sequential fold, so no two
requests of one domain overlap. -/
theorem C9_domain_order (env : Env)
    (gwOpt : Option (Nat → GatewayResponse)) (links : List LinkRow)
    (d : String) (ls : List LinkRow) (ws : WS)
    (hmem : (d, ls) ∈ group_by_domain env links) :
    ls = links.filter (fun l => env.extractDomain l.url = d)
  ∧ (process_domain env gwOpt d ls ws).2.details.map (fun x => x.linkId)
      = ls.map (fun l => l.id) := by
  constructor
  · exact group_by_domain_spec env links (d, ls) hmem
  · rw [process_domain, processDomainFold_detail_ids]
    simp

/-- Claim C9, witness: a two-link batch on one domain under the identity
domain extractor. -/
theorem C9_witness :
    [linkEx] = [linkEx].filter
      (fun l => envId.extractDomain l.url = "http://a.com/x")
  ∧ (process_domain envId none "http://a.com/x" [linkEx] wsEx).2.details.map
        (fun x => x.linkId)
      = [linkEx].map (fun l => l.id) :=
  C9_domain_order envId none [linkEx] "http://a.com/x" [linkEx] wsEx
    (by decide)

/-! Status-write targeting: which link ids a coordinator run touches. -/

/-- Is this event a status write for link `lid`? -/
def statusEvFor (lid : Nat) : Ev → Bool
  | Ev.dbSetStatus i _ _ => i = lid
  | _ => false

/-- The retry loop only writes statuses for its own link: for any other
id, the trace contains a status write for that id afterwards iff it did
before. -/
theorem processAttemptsAux_touches (env : Env)
    (gwOpt : Option (Nat → GatewayResponse)) (link : LinkRow)
    (fuel : Nat) :
    ∀ (attempt : Nat) (le : Option String) (ws : WS) (lid : Nat),
    lid ≠ link.id →
    ((processAttemptsAux env gwOpt link attempt fuel le ws).2.trace.any
      (statusEvFor lid)) = ws.trace.any (statusEvFor lid) := by
  induction fuel with
  | zero =>
      intro attempt le ws lid hne
      have hne' : ¬ (link.id = lid) := fun h => hne h.symm
      simp [processAttemptsAux, wsSetStatus, List.any_append, statusEvFor,
        hne']
  | succ fuel ih =>
      intro attempt le ws lid hne
      have hne' : ¬ (link.id = lid) := fun h => hne h.symm
      rcases gwOpt with _ | gw
      · simp [processAttemptsAux, wsSetStatus, List.any_append, statusEvFor,
          hne']
      · simp only [processAttemptsAux]
        rcases hgw : gw attempt with r | msg
        · rcases r with _ | r
          · simp only [hgw]
            rw [ih _ _ _ lid hne]
            simp [List.any_append, statusEvFor]
          · simp only [hgw]
            rcases hb : r.blocked
            · rcases hs : r.success
              · simp only [hb, hs, Bool.false_eq_true, if_false]
                rw [ih _ _ _ lid hne]
                simp [List.any_append, statusEvFor]
              · simp [hb, hs, wsSaveContent, wsSetStatus, List.any_append,
                  statusEvFor, hne']
            · simp [hb, handle_blacklisted_link, wsUpsertBlacklist,
                wsSetStatus, List.any_append, statusEvFor, hne']
        · simp only [hgw]
          rw [ih _ _ _ lid hne]
          simp [List.any_append, statusEvFor]

/-- One `_process_domain` iteration only writes statuses for the link it
processes. -/
theorem processDomainStep_touches (env : Env)
    (gwOpt : Option (Nat → GatewayResponse)) (domain : String)
    (acc : WS × DomainStats) (link : LinkRow) (lid : Nat)
    (hne : lid ≠ link.id) :
    ((processDomainStep env gwOpt domain acc link).1.trace.any
      (statusEvFor lid)) = acc.1.trace.any (statusEvFor lid) := by
  rcases acc with ⟨ws, st⟩
  have hne' : ¬ (link.id = lid) := fun h => hne h.symm
  simp only [processDomainStep]
  by_cases hbl : is_domain_blacklisted ws.db domain = true
  · simp [hbl, wsSetStatus, List.any_append, statusEvFor, hne']
  · rw [eq_false_of_ne_true hbl]
    simp only [Bool.false_eq_true, if_false]
    have ht := processAttemptsAux_touches env gwOpt link MAX_RETRIES 1 none
      (wsSetStatus { ws with trace := ws.trace ++ [Ev.rateWait domain] }
        link.id "processing" none) lid hne
    simp only [process_single_link]
    simp [wsSetStatus, List.any_append, statusEvFor, hne'] at ht ⊢
    exact ht

/-- The per-domain loop only writes statuses for the ids of its links. -/
theorem processDomainFold_touches (env : Env)
    (gwOpt : Option (Nat → GatewayResponse)) (domain : String)
    (links : List LinkRow) :
    ∀ (acc : WS × DomainStats) (lid : Nat),
    lid ∉ links.map (fun l => l.id) →
    ((links.foldl (processDomainStep env gwOpt domain) acc).1.trace.any
      (statusEvFor lid)) = acc.1.trace.any (statusEvFor lid) := by
  induction links with
  | nil => intro acc lid _; rfl
  | cons l rest ih =>
      intro acc lid hnin
      simp only [List.map_cons, List.mem_cons, not_or] at hnin
      rw [List.foldl_cons, ih _ lid hnin.2,
        processDomainStep_touches env gwOpt domain acc l lid hnin.1]

/-- The coordinator's fold over domain groups only writes statuses for
ids occurring in some group. -/
theorem processDomainsFold_touches (env : Env)
    (gwOpt : Option (Nat → GatewayResponse))
    (groups : List (String × List LinkRow)) :
    ∀ (acc : WS × AggStats) (lid : Nat),
    (∀ g ∈ groups, lid ∉ g.2.map (fun l => l.id)) →
    ((groups.foldl (processDomainsStep env gwOpt) acc).1.trace.any
      (statusEvFor lid)) = acc.1.trace.any (statusEvFor lid) := by
  induction groups with
  | nil => intro acc lid _; rfl
  | cons g rest ih =>
      intro acc lid h
      rw [List.foldl_cons,
        ih _ lid (fun g' hg' => h g' (List.mem_cons_of_mem g hg'))]
      rcases acc with ⟨ws, a⟩
      simp only [processDomainsStep, process_domain]
      exact processDomainFold_touches env gwOpt g.1 g.2 _ lid
        (h g (List.mem_cons_self g rest))

/-- Membership is preserved by the descending insertion. -/
theorem mem_insertDescBy (r x : LinkRow) (l : List LinkRow) :
    x ∈ insertDescBy r l ↔ x = r ∨ x ∈ l := by
  induction l with
  | nil => simp [insertDescBy]
  | cons a l ih =>
      simp only [insertDescBy]
      split
      · rw [List.mem_cons, ih]
        simp [List.mem_cons]
        tauto
      · simp [List.mem_cons]

/-- Membership is preserved by the sort. -/
theorem mem_sortByDiscoveredDesc (x : LinkRow) (l : List LinkRow) :
    x ∈ sortByDiscoveredDesc l ↔ x ∈ l := by
  unfold sortByDiscoveredDesc
  induction l with
  | nil => simp
  | cons a l ih =>
      rw [List.foldr_cons, mem_insertDescBy, ih]
      simp [List.mem_cons]

/-- Every link returned by `get_pending_links` is a stored link whose
status is `'pending'`. -/
theorem get_pending_links_mem (db : DBState) (limit : Nat) (x : LinkRow)
    (hx : x ∈ get_pending_links db limit) :
    x ∈ db.links ∧ x.status = "pending" := by
  unfold get_pending_links at hx
  have hx' := List.take_subset limit _ hx
  rw [mem_sortByDiscoveredDesc] at hx'
  have h := List.mem_filter.mp hx'
  exact ⟨h.1, by simpa using h.2⟩

/-! Claim C8. -/

/-- `linkEx` already completed. -/
def linkDone : LinkRow := { linkEx with status := "completed" }

/-- A second, pending link on another domain. -/
def linkB : LinkRow :=
  { linkEx with id := 2, url := "http://b.com/y", urlHash := "h2" }

/-- A database holding only the completed link. -/
def termDb : DBState :=
  { links := [linkDone], content := [], blacklist := [], nextId := 2,
    now := 7 }

/-- A database holding the completed link and a pending one. -/
def mixDb : DBState :=
  { links := [linkDone, linkB], content := [], blacklist := [],
    nextId := 3, now := 7 }

/-- Claim C8, counterexample: `process_specific_links` fetches links of
any status (`get_links_by_ids` has no status filter), so it re-processes
a link that is already `completed` without any external reset: the run
writes status transitions for it and (with no gateway configured) leaves
it `pending`. -/
theorem C8_counterexample :
    statusOf termDb 1 = some "completed"
  ∧ ((process_specific_links envId none termDb [1]).1.trace.any
      (statusEvFor 1)) = true
  ∧ statusOf (process_specific_links envId none termDb [1]).1.db 1
      = some "pending" := by
  decide

/-- Claim C8, amended: `process_pending_links` never transitions a link
whose stored status is terminal (`completed`, `failed`, or `blocked`),
because it only fetches `pending` links; `process_specific_links`,
however, re-processes links of any status, so terminal immutability
holds only for the pending-batch coordinator (absent an external reset
to `pending`). -/
theorem C8_terminal_untouched (env : Env)
    (gwOpt : Option (Nat → GatewayResponse)) (db : DBState)
    (limit : Nat) (lid : Nat)
    (hterm : ∀ r ∈ db.links, r.id = lid →
      r.status = "completed" ∨ r.status = "failed" ∨ r.status = "blocked") :
    ((process_pending_links env gwOpt db limit).1.trace.any
      (statusEvFor lid)) = false := by
  simp only [process_pending_links]
  split
  · rfl
  · rw [process_domains, processDomainsFold_touches env gwOpt _ _ lid ?hnot]
    · rfl
    case hnot =>
      intro g hg hin
      rw [List.mem_map] at hin
      obtain ⟨link, hlink, hid⟩ := hin
      have hspec := group_by_domain_spec env (get_pending_links db limit) g hg
      rw [hspec] at hlink
      have hl2 := List.mem_filter.mp hlink
      have hp := get_pending_links_mem db limit link hl2.1
      rcases hterm link hp.1 hid with h | h | h <;> rw [hp.2] at h <;>
        exact absurd h (by decide)

/-- Claim C8, witness: a database holding a completed link (id 1) and a
pending link (id 2); the pending-batch run writes no status for id 1. -/
theorem C8_witness :
    ((process_pending_links envId none mixDb 10).1.trace.any
      (statusEvFor 1)) = false :=
  C8_terminal_untouched envId none mixDb 10 1 (by decide)

end NewsSearch
